import Mathlib

/-!
Shallow embedding of `src/app.py` (Mobile-Trauma-Assessment), the
`EnhancedTraumaAssessmentApp` session object and its operations.

External effects are modelled as explicit parameters:
* the outcome of the HTTP POST in `push_report_to_care_bridge` is an
  `HttpOutcome` argument;
* the outcomes of the Supabase lookup queries in `_poll_for_response` are a
  stream `Nat → QueryOutcome`;
* the structured-output LLM call in `generate_comprehensive_report` is an
  `LlmStructuredOutcome` argument;
* wall-clock readings (`datetime.now()` renderings) are a `Clock` argument.

Python truthiness is modelled explicitly where the code relies on it
(`all([...])` in `complete_onboarding`, `if not self.submitted_report_id`,
`if message.get("text")`).
-/

namespace TraumaApp

/-- `child_info` sub-record of `report_data`. -/
structure ChildInfo where
  name : String
  age : Int
  gender : String
  location : String
deriving Repr, DecidableEq

/-- `assessment_data` sub-record of `report_data`. -/
structure AssessmentData where
  parent_observations : String
  ai_analysis : String
  severity_score : Int
  risk_indicators : List String
  cultural_context : String
deriving Repr, DecidableEq

/-- One attachment entry `{"path": ..., "timestamp": ...}`. -/
structure Attachment where
  path : String
  timestamp : String
deriving Repr, DecidableEq

/-- `media_attachments` sub-record of `report_data`. -/
structure MediaAttachments where
  drawings : List Attachment
  audio_recordings : List Attachment
  photos : List Attachment
deriving Repr, DecidableEq

/-- Content of a conversation turn: plain text, or a media reference
`{"path": file}`. -/
inductive ChatContent where
  | text (s : String)
  | media (path : String)
deriving Repr, DecidableEq

/-- A turn `{"role": ..., "content": ...}` of `conversation_history` or
`ollama_conversation`. -/
structure Turn where
  role : String
  content : ChatContent
deriving Repr, DecidableEq

/-- `recommendations` field of a specialist response row: the code accepts
either a mapping (rendered as key/value lines) or a flat value rendered with
`str`. -/
inductive Recommendations where
  | flat (s : String)
  | mapping (kvs : List (String × String))
deriving Repr, DecidableEq

/-- One row of the Supabase `responses` table, as consumed by
`get_specialist_response`. -/
structure SpecialistResponse where
  response_date : String
  psychologist_id : String
  urgency_level : String
  psychologist_notes : String
  recommendations : Recommendations
deriving Repr, DecidableEq

/-- The mutable state of one `EnhancedTraumaAssessmentApp` instance.
`supabase` records whether a Supabase client was configured at `__init__`
(both env credentials present); `specialist_response` models the attribute
set by the polling loop and probed with `hasattr`. -/
structure AppState where
  child_info : ChildInfo
  assessment_data : AssessmentData
  media_attachments : MediaAttachments
  mobile_app_id : String
  session_start : String
  conversation_history : List Turn
  is_onboarded : Bool
  submitted_report_id : Option String
  polling_active : Bool
  ollama_conversation : List Turn
  supabase : Bool
  specialist_response : Option SpecialistResponse
deriving Repr, DecidableEq

/-- The state built by `__init__` (empty report, not onboarded, no report id,
polling inactive). `sessionId` models the fresh `uuid.uuid4()` and
`sessionStart` the `datetime.now().isoformat()` reading. -/
def appInit (sessionId sessionStart : String) (supabaseConfigured : Bool) : AppState :=
  { child_info := ⟨"", 0, "", ""⟩
    assessment_data := ⟨"", "", 0, [], ""⟩
    media_attachments := ⟨[], [], []⟩
    mobile_app_id := sessionId
    session_start := sessionStart
    conversation_history := []
    is_onboarded := false
    submitted_report_id := none
    polling_active := false
    ollama_conversation := []
    supabase := supabaseConfigured
    specialist_response := none }

/-- Python `str.lower()` (ASCII case mapping). -/
def strLower (s : String) : String :=
  String.mk (s.toList.map Char.toLower)

/-- Python `str.upper()` (ASCII case mapping). -/
def strUpper (s : String) : String :=
  String.mk (s.toList.map Char.toUpper)

/-- `pat` is a prefix of `l` (character lists). -/
def isPrefixChars : List Char → List Char → Bool
  | [], _ => true
  | _ :: _, [] => false
  | a :: pat, b :: l => if a = b then isPrefixChars pat l else false

/-- `pat` occurs somewhere in `l` (character lists). -/
def containsChars (pat : List Char) : List Char → Bool
  | [] => isPrefixChars pat []
  | c :: rest => isPrefixChars pat (c :: rest) || containsChars pat rest

/-- Substring test, Python's `pat in s` on strings. -/
def strContains (s pat : String) : Bool :=
  containsChars pat.toList s.toList

/-- Python `s.endswith(pat)`. -/
def strEndsWith (s pat : String) : Bool :=
  isPrefixChars pat.toList.reverse s.toList.reverse

/-- `generate_cultural_context` (app.py:85-95). -/
def generate_cultural_context (location : String) : String :=
  let location_lower := strLower location
  if ["gaza", "palestine", "west bank"].any (fun k => strContains location_lower k) then
    "Assessment conducted considering ongoing conflict exposure and displacement trauma"
  else if ["ukraine", "kyiv", "kharkiv", "mariupol"].any (fun k => strContains location_lower k) then
    "Assessment considering war-related trauma and displacement from conflict zones"
  else if ["syria", "lebanon", "jordan"].any (fun k => strContains location_lower k) then
    "Assessment considering refugee experience and cultural adaptation challenges"
  else
    "Assessment conducted with consideration for local cultural context in " ++ location

/-- `complete_onboarding` (app.py:67-83). The guard models Python
`not all([child_name, child_age, child_gender, child_location])`: an empty
string or the number 0 is falsy. Ages are modelled as integers (`int(age)`
is the identity on integral inputs). Returns `(success, message, newState)`. -/
def complete_onboarding (child_name : String) (child_age : Int)
    (child_gender child_location : String) (s : AppState) :
    Bool × String × AppState :=
  if child_name = "" ∨ child_age = 0 ∨ child_gender = "" ∨ child_location = "" then
    (false, "Please fill in all required information about your child.", s)
  else
    let s1 := { s with
      child_info := ⟨child_name, child_age, child_gender, child_location⟩
      is_onboarded := true }
    let s2 := { s1 with assessment_data := { s1.assessment_data with
      cultural_context := generate_cultural_context child_location } }
    (true, "Welcome! I'm ready to help you with " ++ child_name ++ "'s assessment.", s2)

/-- `classify_file_type` (app.py:142-147). -/
def classify_file_type (file_path : String) : String :=
  if [".jpg", ".jpeg", ".png", ".gif", ".bmp"].any
      (fun ext => strEndsWith (strLower file_path) ext) then "image" else "other"

/-- A value submitted through the multimodal textbox: optional file list and
optional text (Python `message.get("text")` is falsy for `None` and `""`,
which we conflate into `""`). -/
structure UserMessage where
  files : List String
  text : String
deriving Repr, DecidableEq

/-- Per-file part of `add_message` (app.py:103-119): append a media turn to
the history and record images as drawings (filename contains "draw") or
photos. `now` models `datetime.now().isoformat()`. -/
def addFile (now : String) (s : AppState) (file : String) : AppState :=
  let s1 := { s with conversation_history :=
    s.conversation_history ++ [⟨"user", .media file⟩] }
  if classify_file_type file = "image" then
    if strContains (strLower file) "draw" then
      { s1 with media_attachments := { s1.media_attachments with
        drawings := s1.media_attachments.drawings ++ [⟨file, now⟩] } }
    else
      { s1 with media_attachments := { s1.media_attachments with
        photos := s1.media_attachments.photos ++ [⟨file, now⟩] } }
  else s1

/-- `add_message` (app.py:97-140). A no-op before onboarding. Text turns are
appended to both the display history and the model-facing conversation, and
concatenated space-separated onto `parent_observations` (verbatim when the
running observations are empty). -/
def add_message (now : String) (s : AppState) (message : UserMessage) : AppState :=
  if s.is_onboarded = false then s
  else
    let s1 := message.files.foldl (addFile now) s
    if message.text = "" then s1
    else
      let userTurn : Turn := ⟨"user", .text message.text⟩
      let s2 := { s1 with
        conversation_history := s1.conversation_history ++ [userTurn]
        ollama_conversation := s1.ollama_conversation ++ [userTurn] }
      let current_obs := s2.assessment_data.parent_observations
      { s2 with assessment_data := { s2.assessment_data with
        parent_observations :=
          if current_obs = "" then message.text
          else current_obs ++ " " ++ message.text } }

/-- State effect of `bot_response` (app.py:149-210): a no-op on an empty
history or before onboarding; otherwise the assistant's reply text (supplied
by the LLM or the fallback sentence) is appended to `ollama_conversation`
and, through list aliasing with `report_data["conversation_history"]`, to
the stored history. -/
def bot_response (s : AppState) (reply : String) : AppState :=
  if s.conversation_history = [] ∨ s.is_onboarded = false then s
  else
    { s with
      ollama_conversation := s.ollama_conversation ++ [⟨"assistant", .text reply⟩]
      conversation_history := s.conversation_history ++ [⟨"assistant", .text reply⟩] }

/-- `clear_conversation` (app.py:885-890): clears the stored history, the
accumulated observations, the AI analysis and the media attachments. -/
def clear_conversation (s : AppState) : AppState :=
  { s with
    conversation_history := []
    assessment_data := { s.assessment_data with
      parent_observations := ""
      ai_analysis := "" }
    media_attachments := ⟨[], [], []⟩ }

/-- Outcome of the single HTTP POST in `push_report_to_care_bridge`.
`response st txt idOpt` is a completed HTTP exchange with status `st`, body
text `txt`, and JSON-parsed `id` field `idOpt` (`none` when the body has no
`id`; a 201 body that fails to parse as JSON raises and is covered by
`otherError`). The remaining constructors are the exceptions caught by the
code: `requests.exceptions.ConnectionError`, `requests.exceptions.Timeout`,
other `RequestException`s, and any other `Exception`. -/
inductive HttpOutcome where
  | response (status : Nat) (text : String) (idOpt : Option String)
  | connError
  | timeoutError
  | reqError (msg : String)
  | otherError (msg : String)
deriving Repr, DecidableEq

/-- Whether the outcome is the server-declared "created" status (HTTP 201). -/
def HttpOutcome.isCreated : HttpOutcome → Bool
  | .response status _ _ => status == 201
  | _ => false

/-- Result of `push_report_to_care_bridge`: the returned `(ok, message)`
pair, the state after the call, whether the HTTP request was issued at all,
and whether a background polling thread was launched. -/
structure PushResult where
  ok : Bool
  message : String
  state : AppState
  httpIssued : Bool
  threadLaunched : Bool
deriving Repr, DecidableEq

/-- Python truthiness of `self.submitted_report_id` (`None` and `""` are
falsy). -/
def reportIdTruthy : Option String → Bool
  | none => false
  | some t => t ≠ ""

/-- `start_response_polling` (app.py:417-430): a no-op (nothing launched)
when the Supabase client is missing, when no (truthy) report id is stored,
or when polling is already active; otherwise sets `polling_active` and
launches the background polling thread. Returns the new state and whether a
thread was launched. -/
def start_response_polling (s : AppState) : AppState × Bool :=
  if s.supabase = false ∨ reportIdTruthy s.submitted_report_id = false then
    (s, false)
  else if s.polling_active then
    (s, false)
  else
    ({ s with polling_active := true }, true)

/-- `push_report_to_care_bridge` (app.py:365-415). The onboarding and
non-empty-transcript gates precede the network call; only a 201 response
stores `result.get('id', 'Unknown')` and triggers `start_response_polling`;
every other outcome returns a failure message and leaves the state
untouched. -/
def push_report_to_care_bridge (s : AppState) (http : HttpOutcome) : PushResult :=
  if s.is_onboarded = false then
    ⟨false, "Please complete the initial assessment form first.", s, false, false⟩
  else if s.conversation_history = [] then
    ⟨false, "Please have a conversation first before pushing a report.", s, false, false⟩
  else
    match http with
    | .response status text idOpt =>
        if status = 201 then
          let report_id := idOpt.getD "Unknown"
          let s1 := { s with submitted_report_id := some report_id }
          let started := start_response_polling s1
          ⟨true,
            "✅ Report successfully pushed to Care Bridge Platform!\n📋 Report ID: "
              ++ report_id ++ "\n🔄 Now monitoring for specialist response...",
            started.1, true, started.2⟩
        else
          ⟨false, "❌ API Error: " ++ toString status ++ " - " ++ text, s, true, false⟩
    | .connError =>
        ⟨false, "❌ Could not connect to Care Bridge Platform. Please check if the platform is running.",
          s, true, false⟩
    | .timeoutError =>
        ⟨false, "❌ Request timed out. Please try again.", s, true, false⟩
    | .reqError msg =>
        ⟨false, "❌ Network error: " ++ msg, s, true, false⟩
    | .otherError msg =>
        ⟨false, "❌ Unexpected error: " ++ msg, s, true, false⟩

/-- Outcome of one Supabase lookup query in the polling loop: an exception
(`err`) or a completed query returning `rows`. -/
inductive QueryOutcome where
  | err
  | ok (rows : List SpecialistResponse)
deriving Repr, DecidableEq

/-- Result of a run of `_poll_for_response`: final state, final value of
`poll_count` (the number of attempts that consumed budget), and the total
time slept (in seconds; each non-final attempt is followed by
`time.sleep(5)`). The function being total models that the loop never
raises to its caller: query exceptions are swallowed by the
`except` branch. -/
structure PollRun where
  state : AppState
  poll_count : Nat
  slept : Nat
deriving Repr, DecidableEq

/-- The `while` loop of `_poll_for_response` (app.py:437-458), with
`fuel = max_polls - poll_count` as termination measure. `outcomes n` is the
outcome of the query issued in the iteration whose `poll_count` is `n`.
A query returning a non-empty row set stores the first row, clears
`polling_active` and breaks without sleeping; an empty result or a query
exception sleeps 5 seconds and consumes one unit of budget. -/
def pollLoopAux (outcomes : Nat → QueryOutcome) :
    Nat → Nat → Nat → AppState → PollRun
  | 0, count, slept, s => ⟨s, count, slept⟩
  | fuel + 1, count, slept, s =>
    if s.polling_active = false then ⟨s, count, slept⟩
    else
      match outcomes count with
      | .ok (row :: _) =>
          ⟨{ s with specialist_response := some row, polling_active := false },
            count, slept⟩
      | .ok [] => pollLoopAux outcomes fuel (count + 1) (slept + 5) s
      | .err => pollLoopAux outcomes fuel (count + 1) (slept + 5) s

/-- The epilogue of `_poll_for_response` (app.py:460-462): clear
`polling_active` when the attempt budget was exhausted. -/
def pollFinish (r : PollRun) : PollRun :=
  if r.poll_count ≥ 120 then
    ⟨{ r.state with polling_active := false }, r.poll_count, r.slept⟩
  else r

/-- `_poll_for_response` (app.py:432-462): run the loop with
`max_polls = 120` and `poll_count = 0`, then the epilogue. -/
def poll_for_response (outcomes : Nat → QueryOutcome) (s : AppState) : PollRun :=
  pollFinish (pollLoopAux outcomes 120 0 0 s)

/-- The urgency badge lookup in `get_specialist_response`
(app.py:469-476), including the `'⚪'` default. -/
def urgencyEmoji (u : String) : String :=
  if u = "low" then "🟢"
  else if u = "medium" then "🟡"
  else if u = "high" then "🟠"
  else if u = "critical" then "🔴"
  else "⚪"

/-- Python `str.title()` on ASCII text: the first character of each run of
letters is uppercased, the rest lowercased. -/
def pyTitleAux : Bool → List Char → List Char
  | _, [] => []
  | prevAlpha, c :: rest =>
    if c.isAlpha then
      (if prevAlpha then c.toLower else c.toUpper) :: pyTitleAux true rest
    else
      c :: pyTitleAux false rest

/-- Python `str.title()`. -/
def pyTitle (s : String) : String :=
  String.mk (pyTitleAux false s.toList)

/-- `response['response_date'][:19].replace('T', ' ')`. -/
def formatResponseDate (s : String) : String :=
  String.mk ((s.toList.take 19).map (fun c => if c = 'T' then ' ' else c))

/-- Python `key.replace('_', ' ')` (single-character pattern, so a
character map). -/
def replaceUnderscores (s : String) : String :=
  String.mk (s.toList.map (fun c => if c = '_' then ' ' else c))

/-- The `recommendations` rendering of `get_specialist_response`
(app.py:497-501): key/value lines for a mapping, `str(...)` verbatim for a
flat value. -/
def formatRecommendations : Recommendations → String
  | .flat t => t
  | .mapping kvs =>
      String.join (kvs.map (fun kv =>
        "**" ++ pyTitle (replaceUnderscores kv.1) ++ ":** " ++ kv.2 ++ "\n\n"))

/-- The fixed response template of `get_specialist_response`
(app.py:478-501). -/
def formatSpecialistResponse (r : SpecialistResponse) : String :=
  "\n# 👨‍⚕️ SPECIALIST RESPONSE RECEIVED\n\n**Response Date:** "
    ++ formatResponseDate r.response_date
    ++ "  \n**Specialist ID:** " ++ r.psychologist_id
    ++ "  \n**Urgency Level:** " ++ urgencyEmoji r.urgency_level ++ " "
    ++ strUpper r.urgency_level
    ++ "\n\n---\n\n## 📝 PSYCHOLOGIST NOTES\n\n" ++ r.psychologist_notes
    ++ "\n\n---\n\n## 💡 RECOMMENDATIONS\n\n"
    ++ formatRecommendations r.recommendations

/-- `get_specialist_response` (app.py:464-505): `(True, formatted)` once the
polling loop has stored a specialist response, and
`(False, "No specialist response available yet. Still monitoring...")`
before that. Read-only. -/
def get_specialist_response (s : AppState) : Bool × String :=
  match s.specialist_response with
  | some r => (true, formatSpecialistResponse r)
  | none => (false, "No specialist response available yet. Still monitoring...")

/-- The Pydantic `RiskAssessment` record used as the structured-output
schema (app.py:20-25). -/
structure RiskAssessment where
  parent_observations : String
  ai_analysis : String
  severity_score : Int
  risk_indicators : List String
  cultural_context : String
deriving Repr, DecidableEq

/-- Outcome of the structured-output LLM call in
`generate_comprehensive_report`: a record that validated against the
schema, or any transport/parse exception (the whole `try` block raises into
the single `except`). -/
inductive LlmStructuredOutcome where
  | ok (r : RiskAssessment)
  | failure
deriving Repr, DecidableEq

/-- The `datetime.now()` renderings interpolated into the report template:
`strftime("%B %d, %Y at %H:%M")`, `strftime("%B %d, %Y")` and
`isoformat()`. -/
structure Clock where
  headerTime : String
  dateStr : String
  iso : String
deriving Repr, DecidableEq

/-- The two precondition gates of `generate_comprehensive_report`
(app.py:214-218): `some message` when a gate rejects, `none` when synthesis
proceeds. Note the second gate reads `ollama_conversation`, the model-facing
buffer, not `report_data["conversation_history"]`. -/
def generate_gate (s : AppState) : Option String :=
  if s.is_onboarded = false then
    some "Please complete the initial assessment form first."
  else if s.ollama_conversation = [] then
    some "Please have a conversation first before generating a report."
  else none

/-- The assessment-data update of `generate_comprehensive_report`: on
success all five fields are rewritten from the parsed record
(app.py:253-257); on failure only `severity_score := 6` and the three
fallback `risk_indicators` are written (app.py:267-268), every other field
keeping its previous value. -/
def apply_assessment (s : AppState) : LlmStructuredOutcome → AppState
  | .ok a =>
      { s with assessment_data :=
        ⟨a.parent_observations, a.ai_analysis, a.severity_score,
          a.risk_indicators, a.cultural_context⟩ }
  | .failure =>
      { s with assessment_data := { s.assessment_data with
        severity_score := 6
        risk_indicators := ["sleep disturbances", "behavioral changes", "anxiety"] } }

/-- The report template returned by `generate_comprehensive_report`
(app.py:277-363). -/
def render_report (clk : Clock) (s : AppState) : String :=
  let child_info := s.child_info
  let assessment_data := s.assessment_data
  let media_attachments := s.media_attachments
  let severity := assessment_data.severity_score
  let risk_indicators := assessment_data.risk_indicators
  "# 🔍 COMPREHENSIVE TRAUMA ASSESSMENT REPORT\n\n**Generated:** "
    ++ clk.headerTime
    ++ "  \n**Assessment ID:** " ++ s.mobile_app_id.take 8
    ++ "  \n**Confidentiality Level:** Protected Health Information\n**Platform:** Child Trauma Assessment AI\n\n---\n\n## 👤 CHILD INFORMATION\n\n**Name:** "
    ++ child_info.name
    ++ "  \n**Age:** " ++ toString child_info.age
    ++ " years old  \n**Gender:** " ++ pyTitle child_info.gender
    ++ "  \n**Location:** " ++ child_info.location
    ++ "  \n**Assessment Date:** " ++ clk.dateStr
    ++ "\n\n---\n\n## 👥 PARENT OBSERVATIONS\n\n"
    ++ assessment_data.parent_observations
    ++ "\n\n**Session Details:**\n- **Duration:** "
    ++ toString s.conversation_history.length
    ++ " message exchanges\n- **Media Provided:** "
    ++ toString media_attachments.drawings.length
    ++ " drawings, " ++ toString media_attachments.photos.length
    ++ " photographs\n\n---\n\n## 🧠 AI ANALYSIS\n\n"
    ++ assessment_data.ai_analysis
    ++ "\n\n**Behavioral Patterns Identified:**\n"
    ++ String.intercalate "\n" (risk_indicators.map (fun i => "• " ++ i))
    ++ "\n\n---\n\n## ⚠️ SEVERITY ASSESSMENT\n\n**Severity Score:** "
    ++ toString severity
    ++ "/10  \n**Risk Level:** "
    ++ (if severity < 7 then "🟡 Moderate Risk"
        else "🔴 High Risk - Urgent Intervention Recommended")
    ++ "  \n**Clinical Priority:** "
    ++ (if severity < 7 then "Standard referral appropriate"
        else "Expedited professional evaluation needed")
    ++ "\n\n---\n\n## 🌍 CULTURAL CONTEXT\n\n"
    ++ assessment_data.cultural_context
    ++ "\n\nThis assessment considers the cultural and environmental factors specific to "
    ++ child_info.location
    ++ ", including region-specific trauma expressions, family dynamics, and community support systems.\n\n---\n\n## 📋 CLINICAL RECOMMENDATIONS\n\n**Immediate Actions:**\n1. Schedule comprehensive evaluation with licensed child trauma specialist\n2. Ensure stable, predictable environment for "
    ++ child_info.name
    ++ "\n3. Implement safety planning and crisis contact protocols\n\n**Therapeutic Interventions:**\n1. Begin trauma-focused cognitive behavioral therapy (TF-CBT)\n2. Consider family therapy to strengthen support systems\n3. Monitor sleep, appetite, and behavioral patterns daily\n\n**Cultural Considerations:**\n1. Engage culturally competent mental health services\n2. Incorporate traditional coping mechanisms where appropriate\n3. Consider community-based support resources\n\n**Follow-up:**\n- Initial professional evaluation within 1-2 weeks\n- Regular monitoring and assessment as recommended by treating clinician\n\n---\n\n## ⚖️ IMPORTANT DISCLAIMERS\n\n- **Preliminary Screening Tool:** This AI-generated assessment is for screening purposes only and does NOT constitute a clinical diagnosis\n- **Professional Validation Required:** All findings must be validated by licensed mental health professionals\n- **Emergency Protocol:** For immediate safety concerns, contact emergency services immediately\n- **Clinical Judgment:** AI analysis should supplement, not replace, professional clinical assessment\n\n**Report Generated:** "
    ++ clk.iso
    ++ "  \n**Next Review Recommended:** " ++ clk.dateStr ++ " (2 weeks)\n"

/-- `generate_comprehensive_report` (app.py:212-363): gate messages leave
the state unchanged; otherwise the assessment data is rewritten (from the
parsed record, or the fallback on failure) and the formatted report is
rendered and returned. Never aborts: the LLM failure is absorbed by the
fallback. The `progress_callback` is purely observational and omitted. -/
def generate_comprehensive_report (clk : Clock) (s : AppState)
    (llm : LlmStructuredOutcome) : String × AppState :=
  match generate_gate s with
  | some m => (m, s)
  | none =>
      let s1 := apply_assessment s llm
      (render_report clk s1, s1)

/-- Transition relation of one session: every state mutation performed by a
method of `EnhancedTraumaAssessmentApp` or by a UI event handler. The
read-only `get_specialist_response` is omitted. -/
inductive Step : AppState → AppState → Prop where
  | onboard (n : String) (a : Int) (g l : String) (s : AppState) :
      Step s (complete_onboarding n a g l s).2.2
  | message (now : String) (m : UserMessage) (s : AppState) :
      Step s (add_message now s m)
  | bot (reply : String) (s : AppState) :
      Step s (bot_response s reply)
  | clear (s : AppState) :
      Step s (clear_conversation s)
  | generate (clk : Clock) (llm : LlmStructuredOutcome) (s : AppState) :
      Step s (generate_comprehensive_report clk s llm).2
  | pushStep (http : HttpOutcome) (s : AppState) :
      Step s (push_report_to_care_bridge s http).state
  | startPoll (s : AppState) :
      Step s (start_response_polling s).1
  | pollRun (outcomes : Nat → QueryOutcome) (s : AppState) :
      Step s (poll_for_response outcomes s).state

/-- States reachable from some freshly constructed session by the
operations of the app. -/
def Reachable (s : AppState) : Prop :=
  ∃ sessionId sessionStart supabaseConfigured,
    Relation.ReflTransGen Step (appInit sessionId sessionStart supabaseConfigured) s

/-- The coordinator invariant: polling can only be active while a remote
report id is stored and the Supabase lookup client is configured. -/
def PollInv (s : AppState) : Prop :=
  s.polling_active = true → s.submitted_report_id ≠ none ∧ s.supabase = true

/-- `t` agrees with `s` on the three fields read by `PollInv`. -/
def SamePollFields (s t : AppState) : Prop :=
  t.polling_active = s.polling_active ∧
  t.submitted_report_id = s.submitted_report_id ∧
  t.supabase = s.supabase

/-- A freshly constructed session with Supabase configured. -/
def exInit : AppState := appInit "sid-0001" "2026-01-01T00:00:00" true

/-- `exInit` after `complete_onboarding("Sam", 8, "Female", "Gaza")`. -/
def exOnboarded : AppState := (complete_onboarding "Sam" 8 "Female" "Gaza" exInit).2.2

/-- `exOnboarded` after one text turn. -/
def exConversed : AppState :=
  add_message "2026-01-01T00:01:00" exOnboarded ⟨[], "He cries at night"⟩

/-- `exConversed` after a push that the platform answered with HTTP 201 and
report id `rep-42`. -/
def exPushed : AppState :=
  (push_report_to_care_bridge exConversed (.response 201 "body" (some "rep-42"))).state

/-- A fixed clock reading for report rendering. -/
def exClock : Clock :=
  ⟨"June 01, 2026 at 10:00", "June 01, 2026", "2026-06-01T10:00:00"⟩

/-- A specialist response row. -/
def exReply : SpecialistResponse :=
  ⟨"2026-01-02T10:00:00.123", "psy-7", "high", "Please seek immediate help.",
    .mapping [("follow_up", "weekly sessions")]⟩

/-- `exPushed` after a polling run whose first query already finds
`exReply`. -/
def exResponded : AppState :=
  (poll_for_response (fun _ => .ok [exReply]) exPushed).state

/-! Helper lemmas. -/

theorem samePoll_trans {s t u : AppState}
    (h1 : SamePollFields s t) (h2 : SamePollFields t u) : SamePollFields s u :=
  ⟨h2.1.trans h1.1, h2.2.1.trans h1.2.1, h2.2.2.trans h1.2.2⟩

theorem pollInv_of_samePoll {s t : AppState}
    (h : SamePollFields s t) (hs : PollInv s) : PollInv t := by
  intro hact
  obtain ⟨hid, hsb⟩ := hs (h.1.symm.trans hact)
  constructor
  · rw [h.2.1]; exact hid
  · rw [h.2.2]; exact hsb

theorem addFile_samePoll (now : String) (s : AppState) (f : String) :
    SamePollFields s (addFile now s f) := by
  unfold SamePollFields addFile
  split
  · split <;> exact ⟨rfl, rfl, rfl⟩
  · exact ⟨rfl, rfl, rfl⟩

theorem foldl_addFile_samePoll (files : List String) (now : String) (s : AppState) :
    SamePollFields s (files.foldl (addFile now) s) := by
  induction files generalizing s with
  | nil => exact ⟨rfl, rfl, rfl⟩
  | cons f fs ih =>
      exact samePoll_trans (addFile_samePoll now s f) (ih (addFile now s f))

theorem add_message_samePoll (now : String) (s : AppState) (m : UserMessage) :
    SamePollFields s (add_message now s m) := by
  unfold add_message
  split
  · exact ⟨rfl, rfl, rfl⟩
  · split
    · exact foldl_addFile_samePoll m.files now s
    · obtain ⟨h1, h2, h3⟩ := foldl_addFile_samePoll m.files now s
      exact ⟨h1, h2, h3⟩

theorem complete_onboarding_samePoll (n : String) (a : Int) (g l : String) (s : AppState) :
    SamePollFields s (complete_onboarding n a g l s).2.2 := by
  unfold complete_onboarding
  split <;> exact ⟨rfl, rfl, rfl⟩

theorem bot_response_samePoll (s : AppState) (reply : String) :
    SamePollFields s (bot_response s reply) := by
  unfold bot_response
  split <;> exact ⟨rfl, rfl, rfl⟩

theorem clear_conversation_samePoll (s : AppState) :
    SamePollFields s (clear_conversation s) :=
  ⟨rfl, rfl, rfl⟩

theorem generate_samePoll (clk : Clock) (s : AppState) (llm : LlmStructuredOutcome) :
    SamePollFields s (generate_comprehensive_report clk s llm).2 := by
  unfold generate_comprehensive_report
  split
  · exact ⟨rfl, rfl, rfl⟩
  · cases llm <;> exact ⟨rfl, rfl, rfl⟩

/-! Claim theorems. -/

/-- Claim C7: `clear_conversation` empties the transcript, the accumulated
observations and all three media-attachment sequences, and leaves
`child_info` and the session identifier `mobile_app_id` unchanged. -/
theorem clear_conversation_frame (s : AppState) :
    (clear_conversation s).conversation_history = [] ∧
    (clear_conversation s).assessment_data.parent_observations = "" ∧
    (clear_conversation s).media_attachments.drawings = [] ∧
    (clear_conversation s).media_attachments.audio_recordings = [] ∧
    (clear_conversation s).media_attachments.photos = [] ∧
    (clear_conversation s).child_info = s.child_info ∧
    (clear_conversation s).mobile_app_id = s.mobile_app_id :=
  ⟨rfl, rfl, rfl, rfl, rfl, rfl, rfl⟩

/-- Claim C9: `complete_onboarding` enforces no age range. For any non-empty
name, gender and location and any non-zero age (1, 100, negative values
included), it succeeds, stores the age in `child_info`, and opens the
onboarding gate; the `[2,18]` bound lives only in the `gr.Number` widget. -/
theorem complete_onboarding_no_age_bound (s : AppState) (n : String) (a : Int)
    (g l : String) (hn : n ≠ "") (ha : a ≠ 0) (hg : g ≠ "") (hl : l ≠ "") :
    (complete_onboarding n a g l s).1 = true ∧
    (complete_onboarding n a g l s).2.2.child_info = ⟨n, a, g, l⟩ ∧
    (complete_onboarding n a g l s).2.2.is_onboarded = true := by
  have hcond : ¬(n = "" ∨ a = 0 ∨ g = "" ∨ l = "") := by
    push_neg
    exact ⟨hn, ha, hg, hl⟩
  unfold complete_onboarding
  rw [if_neg hcond]
  exact ⟨rfl, rfl, rfl⟩

/-- Witness for C9 at age 100, outside the UI widget's `[2,18]` range. -/
theorem complete_onboarding_no_age_bound_witness :
    (complete_onboarding "Lina" 100 "Female" "London" exInit).1 = true ∧
    (complete_onboarding "Lina" 100 "Female" "London" exInit).2.2.child_info
      = ⟨"Lina", 100, "Female", "London"⟩ ∧
    (complete_onboarding "Lina" 100 "Female" "London" exInit).2.2.is_onboarded = true :=
  complete_onboarding_no_age_bound exInit "Lina" 100 "Female" "London"
    (by decide) (by decide) (by decide) (by decide)

theorem pollLoopAux_all_empty (outcomes : Nat → QueryOutcome)
    (hempty : ∀ n, outcomes n = .err ∨ outcomes n = .ok []) :
    ∀ (fuel count slept : Nat) (s : AppState), s.polling_active = true →
      pollLoopAux outcomes fuel count slept s = ⟨s, count + fuel, slept + 5 * fuel⟩ := by
  intro fuel
  induction fuel with
  | zero =>
      intro count slept s _
      simp [pollLoopAux]
  | succ n ih =>
      intro count slept s hact
      have e1 : count + (n + 1) = (count + 1) + n := by omega
      have e2 : slept + 5 * (n + 1) = (slept + 5) + 5 * n := by omega
      rw [e1, e2]
      unfold pollLoopAux
      rw [if_neg (by simp [hact])]
      rcases hempty count with h | h <;> rw [h] <;>
        exact ih (count + 1) (slept + 5) s hact

theorem pollLoopAux_count_le (outcomes : Nat → QueryOutcome) :
    ∀ (fuel count slept : Nat) (s : AppState),
      (pollLoopAux outcomes fuel count slept s).poll_count ≤ count + fuel := by
  intro fuel
  induction fuel with
  | zero =>
      intro count slept s
      simp [pollLoopAux]
  | succ n ih =>
      intro count slept s
      unfold pollLoopAux
      split
      · simp
      · split
        · simp
        · exact le_trans (ih (count + 1) (slept + 5) s) (by omega)
        · exact le_trans (ih (count + 1) (slept + 5) s) (by omega)

theorem pollLoopAux_poll_fields (outcomes : Nat → QueryOutcome) :
    ∀ (fuel count slept : Nat) (s : AppState),
      (pollLoopAux outcomes fuel count slept s).state.submitted_report_id
          = s.submitted_report_id ∧
      (pollLoopAux outcomes fuel count slept s).state.supabase = s.supabase ∧
      ((pollLoopAux outcomes fuel count slept s).state.polling_active = true →
        s.polling_active = true) := by
  intro fuel
  induction fuel with
  | zero =>
      intro count slept s
      exact ⟨rfl, rfl, fun h => h⟩
  | succ n ih =>
      intro count slept s
      unfold pollLoopAux
      split
      · exact ⟨rfl, rfl, fun h => h⟩
      · rename_i hpa
        have hs : s.polling_active = true := by
          cases h : s.polling_active
          · exact absurd h hpa
          · rfl
        split
        · exact ⟨rfl, rfl, fun _ => hs⟩
        · exact ih (count + 1) (slept + 5) s
        · exact ih (count + 1) (slept + 5) s

/-- Claim C1: when no lookup query ever returns a non-empty result
(including runs where every query raises), the polling loop consumes exactly
the 120-attempt budget, sleeps the fixed 5 seconds after every attempt
(600 seconds in total), ends with `polling_active = false` (the timed-out
terminal status) and changes nothing else in the state; query errors are
swallowed into the same budget. The loop function being total models that
the run never raises to the caller. The second conjunct gives the
unconditional budget bound: no run, whatever the query outcomes, exceeds
120 attempts. -/
theorem poll_for_response_timeout (outcomes : Nat → QueryOutcome) (s : AppState)
    (hact : s.polling_active = true)
    (hempty : ∀ n, outcomes n = .err ∨ outcomes n = .ok []) :
    poll_for_response outcomes s
      = ⟨{ s with polling_active := false }, 120, 5 * 120⟩ ∧
    ∀ (oc : Nat → QueryOutcome) (t : AppState),
      (poll_for_response oc t).poll_count ≤ 120 := by
  constructor
  · unfold poll_for_response
    rw [pollLoopAux_all_empty outcomes hempty 120 0 0 s hact]
    norm_num [pollFinish]
  · intro oc t
    unfold poll_for_response pollFinish
    have hle := pollLoopAux_count_le oc 120 0 0 t
    split
    · simpa using hle
    · simpa using hle

/-- Witness for C1: a session that has just pushed successfully, polled
against a store whose every query raises. -/
theorem poll_for_response_timeout_witness :
    poll_for_response (fun _ => QueryOutcome.err) exPushed
      = ⟨{ exPushed with polling_active := false }, 120, 5 * 120⟩ :=
  (poll_for_response_timeout (fun _ => QueryOutcome.err) exPushed rfl
    (fun _ => Or.inl rfl)).1

theorem start_preserves_pollInv (s : AppState) (h : PollInv s) :
    PollInv (start_response_polling s).1 := by
  unfold start_response_polling
  split
  · exact h
  · rename_i hcond
    push_neg at hcond
    split
    · exact h
    · intro _
      constructor
      · cases hid : s.submitted_report_id with
        | none =>
            exfalso
            apply hcond.2
            rw [hid]
            rfl
        | some v => simp
      · cases hsb : s.supabase
        · exact absurd hsb hcond.1
        · rfl

theorem push_preserves_pollInv (s : AppState) (http : HttpOutcome) (h : PollInv s) :
    PollInv (push_report_to_care_bridge s http).state := by
  unfold push_report_to_care_bridge
  split
  · exact h
  · split
    · exact h
    · cases http with
      | response status text idOpt =>
          dsimp only
          split
          · apply start_preserves_pollInv
            intro hact
            exact ⟨by simp, (h hact).2⟩
          · exact h
      | connError => exact h
      | timeoutError => exact h
      | reqError msg => exact h
      | otherError msg => exact h

theorem poll_preserves_pollInv (outcomes : Nat → QueryOutcome) (s : AppState)
    (h : PollInv s) : PollInv (poll_for_response outcomes s).state := by
  unfold poll_for_response pollFinish
  obtain ⟨h1, h2, h3⟩ := pollLoopAux_poll_fields outcomes 120 0 0 s
  split
  · intro hact
    exact absurd hact (by simp)
  · intro hact
    obtain ⟨hid, hsb⟩ := h (h3 hact)
    constructor
    · rw [h1]; exact hid
    · rw [h2]; exact hsb

theorem step_preserves_pollInv {s t : AppState} (h : PollInv s) (hst : Step s t) :
    PollInv t := by
  cases hst with
  | onboard n a g l => exact pollInv_of_samePoll (complete_onboarding_samePoll n a g l s) h
  | message now m => exact pollInv_of_samePoll (add_message_samePoll now s m) h
  | bot reply => exact pollInv_of_samePoll (bot_response_samePoll s reply) h
  | clear => exact pollInv_of_samePoll (clear_conversation_samePoll s) h
  | generate clk llm => exact pollInv_of_samePoll (generate_samePoll clk s llm) h
  | pushStep http => exact push_preserves_pollInv s http h
  | startPoll => exact start_preserves_pollInv s h
  | pollRun outcomes => exact poll_preserves_pollInv outcomes s h

theorem reachable_pollInv (s : AppState) (h : Reachable s) : PollInv s := by
  obtain ⟨sessionId, sessionStart, supabaseConfigured, hsteps⟩ := h
  induction hsteps with
  | refl =>
      intro hact
      exact absurd hact (by simp [appInit])
  | tail h1 h2 ih => exact step_preserves_pollInv ih h2

theorem exPushed_reachable : Reachable exPushed := by
  refine ⟨"sid-0001", "2026-01-01T00:00:00", true, ?_⟩
  have h1 : Step exInit exOnboarded :=
    Step.onboard "Sam" 8 "Female" "Gaza" exInit
  have h2 : Step exOnboarded exConversed :=
    Step.message "2026-01-01T00:01:00" ⟨[], "He cries at night"⟩ exOnboarded
  have h3 : Step exConversed exPushed :=
    Step.pushStep (.response 201 "body" (some "rep-42")) exConversed
  exact Relation.ReflTransGen.tail
    (Relation.ReflTransGen.tail (Relation.ReflTransGen.tail Relation.ReflTransGen.refl h1) h2) h3

/-- Claim C2: in every reachable state of the coordinator, `polling_active`
is true only if a remote report id is stored and the Supabase lookup client
is configured; and `start_response_polling` is idempotent: called while
polling is already active it returns the state unchanged and launches no
second background loop, so at most one polling loop is active per session. -/
theorem polling_invariant_and_idempotent_start :
    (∀ s : AppState, Reachable s → PollInv s) ∧
    (∀ s : AppState, s.polling_active = true →
      start_response_polling s = (s, false)) := by
  constructor
  · exact reachable_pollInv
  · intro s hact
    simp [start_response_polling, hact]

/-- Witness for C2 at the reachable state `exPushed`, whose polling loop is
active: the invariant fields hold and a second `start_response_polling` is a
no-op that launches nothing. -/
theorem polling_invariant_and_idempotent_start_witness :
    (exPushed.submitted_report_id ≠ none ∧ exPushed.supabase = true) ∧
    start_response_polling exPushed = (exPushed, false) :=
  ⟨polling_invariant_and_idempotent_start.1 exPushed exPushed_reachable rfl,
    polling_invariant_and_idempotent_start.2 exPushed rfl⟩

theorem start_response_polling_srid (t : AppState) :
    (start_response_polling t).1.submitted_report_id = t.submitted_report_id := by
  unfold start_response_polling
  split
  · rfl
  · split <;> rfl

theorem push_empty_gate (s : AppState) (http : HttpOutcome)
    (hconv : s.conversation_history = []) :
    (push_report_to_care_bridge s http).httpIssued = false ∧
    (push_report_to_care_bridge s http).ok = false ∧
    (push_report_to_care_bridge s http).state = s ∧
    (s.is_onboarded = true →
      (push_report_to_care_bridge s http).message
        = "Please have a conversation first before pushing a report.") := by
  unfold push_report_to_care_bridge
  by_cases hoff : s.is_onboarded = false
  · rw [if_pos hoff]
    exact ⟨rfl, rfl, rfl, fun hon => nomatch hoff.symm.trans hon⟩
  · rw [if_neg hoff, if_pos hconv]
    exact ⟨rfl, rfl, rfl, fun _ => rfl⟩

/-- Claim C3: with the preconditions satisfied, any failed POST (connection
error, timeout, other network fault) or any non-201 status makes
`push_report_to_care_bridge` return a failure, launch no polling thread and
leave the state untouched; the non-201 message carries the status code and
body; only a 201 response stores the parsed id and triggers
`start_response_polling`. No retry exists: the single `http` outcome is
consumed exactly once. -/
theorem push_failure_behavior (s : AppState) (http : HttpOutcome)
    (hon : s.is_onboarded = true) (hconv : s.conversation_history ≠ []) :
    (http.isCreated = false →
      (push_report_to_care_bridge s http).ok = false ∧
      (push_report_to_care_bridge s http).state = s ∧
      (push_report_to_care_bridge s http).threadLaunched = false) ∧
    (∀ (status : Nat) (text : String) (idOpt : Option String),
      http = .response status text idOpt → status ≠ 201 →
      (push_report_to_care_bridge s http).message
        = "❌ API Error: " ++ toString status ++ " - " ++ text) ∧
    (∀ (text : String) (idOpt : Option String),
      http = .response 201 text idOpt →
      (push_report_to_care_bridge s http).ok = true ∧
      (push_report_to_care_bridge s http).state.submitted_report_id
        = some (idOpt.getD "Unknown") ∧
      (push_report_to_care_bridge s http).state
        = (start_response_polling
            { s with submitted_report_id := some (idOpt.getD "Unknown") }).1) := by
  unfold push_report_to_care_bridge
  rw [if_neg (by rw [hon]; decide), if_neg hconv]
  cases http with
  | response status text idOpt =>
      dsimp only
      by_cases h201 : status = 201
      · subst h201
        rw [if_pos rfl]
        refine ⟨?_, ?_, ?_⟩
        · intro hfalse
          simp [HttpOutcome.isCreated] at hfalse
        · intro st tx io heq hne
          injection heq with e1 _ _
          exact absurd e1.symm hne
        · intro tx io heq
          injection heq with _ _ e3
          subst e3
          exact ⟨rfl, start_response_polling_srid _, rfl⟩
      · rw [if_neg h201]
        refine ⟨fun _ => ⟨rfl, rfl, rfl⟩, ?_, ?_⟩
        · intro st tx io heq _
          injection heq with e1 e2 _
          rw [e1, e2]
        · intro tx io heq
          injection heq with e1 _ _
          exact absurd e1 h201
  | connError =>
      refine ⟨fun _ => ⟨rfl, rfl, rfl⟩, ?_, ?_⟩
      · intro st tx io heq _
        exact nomatch heq
      · intro tx io heq
        exact nomatch heq
  | timeoutError =>
      refine ⟨fun _ => ⟨rfl, rfl, rfl⟩, ?_, ?_⟩
      · intro st tx io heq _
        exact nomatch heq
      · intro tx io heq
        exact nomatch heq
  | reqError msg =>
      refine ⟨fun _ => ⟨rfl, rfl, rfl⟩, ?_, ?_⟩
      · intro st tx io heq _
        exact nomatch heq
      · intro tx io heq
        exact nomatch heq
  | otherError msg =>
      refine ⟨fun _ => ⟨rfl, rfl, rfl⟩, ?_, ?_⟩
      · intro st tx io heq _
        exact nomatch heq
      · intro tx io heq
        exact nomatch heq

/-- Witness for C3: an onboarded, conversed session pushed against a
platform answering HTTP 500. -/
theorem push_failure_behavior_witness :
    (push_report_to_care_bridge exConversed
        (.response 500 "Internal Server Error" none)).ok = false ∧
    (push_report_to_care_bridge exConversed
        (.response 500 "Internal Server Error" none)).state = exConversed ∧
    (push_report_to_care_bridge exConversed
        (.response 500 "Internal Server Error" none)).threadLaunched = false ∧
    (push_report_to_care_bridge exConversed
        (.response 500 "Internal Server Error" none)).message
      = "❌ API Error: " ++ toString 500 ++ " - " ++ "Internal Server Error" := by
  have h := push_failure_behavior exConversed
    (.response 500 "Internal Server Error" none) rfl (by decide)
  obtain ⟨hf, hmsg, _⟩ := h
  obtain ⟨h1, h2, h3⟩ := hf rfl
  exact ⟨h1, h2, h3, hmsg 500 "Internal Server Error" none rfl (by decide)⟩

/-- Claim C6: with an empty conversation transcript, `push` fails without
issuing any HTTP request and without changing state; for an onboarded
session the failure message says a conversation is required first (the
transcript gate precedes any network call). -/
theorem push_requires_transcript (s : AppState) (http : HttpOutcome)
    (hconv : s.conversation_history = []) :
    (push_report_to_care_bridge s http).httpIssued = false ∧
    (push_report_to_care_bridge s http).ok = false ∧
    (push_report_to_care_bridge s http).state = s ∧
    (s.is_onboarded = true →
      (push_report_to_care_bridge s http).message
        = "Please have a conversation first before pushing a report.") :=
  push_empty_gate s http hconv

/-- Witness for C6: an onboarded session with no conversation yet. -/
theorem push_requires_transcript_witness :
    (push_report_to_care_bridge exOnboarded HttpOutcome.connError).httpIssued = false ∧
    (push_report_to_care_bridge exOnboarded HttpOutcome.connError).ok = false ∧
    (push_report_to_care_bridge exOnboarded HttpOutcome.connError).message
      = "Please have a conversation first before pushing a report." := by
  have h := push_requires_transcript exOnboarded HttpOutcome.connError rfl
  exact ⟨h.1, h.2.1, h.2.2.2 rfl⟩

theorem add_message_text_obs (t : AppState) (now text : String)
    (hon : t.is_onboarded = true) (htext : text ≠ "") :
    (add_message now t ⟨[], text⟩).assessment_data.parent_observations
      = if t.assessment_data.parent_observations = "" then text
        else t.assessment_data.parent_observations ++ " " ++ text := by
  unfold add_message
  rw [if_neg (by rw [hon]; decide)]
  dsimp only [List.foldl]
  rw [if_neg htext]

theorem add_message_textonly_is_onboarded (t : AppState) (now text : String) :
    (add_message now t ⟨[], text⟩).is_onboarded = t.is_onboarded := by
  unfold add_message
  split
  · rfl
  · dsimp only [List.foldl]
    split <;> rfl

/-- Claim C8: starting from empty observations, submitting text turn "A"
then text turn "B" yields observations `"A B"` — submission order with a
single separating space; and in general every non-empty text turn is
concatenated space-separated onto the end of the running observations. -/
theorem observations_append_order (s : AppState) (now1 now2 : String)
    (hon : s.is_onboarded = true)
    (hobs : s.assessment_data.parent_observations = "") :
    (add_message now2 (add_message now1 s ⟨[], "A"⟩)
        ⟨[], "B"⟩).assessment_data.parent_observations = "A B" ∧
    (∀ (t : AppState) (now text : String), t.is_onboarded = true → text ≠ "" →
      t.assessment_data.parent_observations ≠ "" →
      (add_message now t ⟨[], text⟩).assessment_data.parent_observations
        = t.assessment_data.parent_observations ++ " " ++ text) := by
  constructor
  · have h1 := add_message_text_obs s now1 "A" hon (by decide)
    rw [hobs, if_pos rfl] at h1
    have honb1 : (add_message now1 s ⟨[], "A"⟩).is_onboarded = true :=
      (add_message_textonly_is_onboarded s now1 "A").trans hon
    have h2 := add_message_text_obs (add_message now1 s ⟨[], "A"⟩) now2 "B"
      honb1 (by decide)
    rw [h1] at h2
    rw [h2]
    decide
  · intro t now text hot htx hne
    rw [add_message_text_obs t now text hot htx, if_neg hne]

/-- Witness for C8 at the freshly onboarded session. -/
theorem observations_append_order_witness :
    (add_message "t2" (add_message "t1" exOnboarded ⟨[], "A"⟩)
        ⟨[], "B"⟩).assessment_data.parent_observations = "A B" :=
  (observations_append_order exOnboarded "t1" "t2" rfl rfl).1

/-- Claim C10: `clear_conversation` does not clear the model-facing buffer
`ollama_conversation`; after a reset following a non-empty conversation, the
report generator's non-empty-conversation gate (which reads
`ollama_conversation`) still passes, while `push_report_to_care_bridge` is
rejected with the conversation-required message and issues no HTTP request,
because its gate reads the cleared `conversation_history`. -/
theorem reset_gates_divergence (s : AppState)
    (hon : s.is_onboarded = true) (hconv : s.ollama_conversation ≠ []) :
    (clear_conversation s).ollama_conversation = s.ollama_conversation ∧
    (clear_conversation s).conversation_history = [] ∧
    generate_gate (clear_conversation s) = none ∧
    (∀ http : HttpOutcome,
      (push_report_to_care_bridge (clear_conversation s) http).ok = false ∧
      (push_report_to_care_bridge (clear_conversation s) http).httpIssued = false ∧
      (push_report_to_care_bridge (clear_conversation s) http).message
        = "Please have a conversation first before pushing a report.") := by
  have h1 : (clear_conversation s).is_onboarded = true := hon
  have h2 : (clear_conversation s).ollama_conversation = s.ollama_conversation := rfl
  refine ⟨rfl, rfl, ?_, ?_⟩
  · unfold generate_gate
    rw [if_neg (by rw [h1]; decide), if_neg (by rw [h2]; exact hconv)]
  · intro http
    have h := push_empty_gate (clear_conversation s) http rfl
    exact ⟨h.2.1, h.1, h.2.2.2 h1⟩

/-- Witness for C10 at the conversed session. -/
theorem reset_gates_divergence_witness :
    (clear_conversation exConversed).ollama_conversation
      = exConversed.ollama_conversation ∧
    generate_gate (clear_conversation exConversed) = none ∧
    (push_report_to_care_bridge (clear_conversation exConversed)
        HttpOutcome.connError).httpIssued = false ∧
    (push_report_to_care_bridge (clear_conversation exConversed)
        HttpOutcome.connError).message
      = "Please have a conversation first before pushing a report." := by
  have h := reset_gates_divergence exConversed rfl (by decide)
  exact ⟨h.1, h.2.2.1, (h.2.2.2 HttpOutcome.connError).2.1,
    (h.2.2.2 HttpOutcome.connError).2.2⟩

/-- Counterexample to C4 as stated: after onboarding (location "Gaza") and a
conversation, a failed structured-output call leaves `cultural_context`
holding the onboarding-generated text, not blank — the fallback writes only
`severity_score` and `risk_indicators`. -/
theorem generate_fallback_counterexample :
    (generate_comprehensive_report exClock exConversed
        .failure).2.assessment_data.cultural_context
      = "Assessment conducted considering ongoing conflict exposure and displacement trauma" ∧
    (generate_comprehensive_report exClock exConversed
        .failure).2.assessment_data.cultural_context ≠ "" ∧
    (generate_comprehensive_report exClock exConversed
        .failure).2.assessment_data.severity_score = 6 := by
  refine ⟨by decide, by decide, by decide⟩

/-- Claim C4 as amended: on a structured-output failure,
`generate_comprehensive_report` substitutes `severity_score = 6` and exactly
the three fallback indicators, leaves the analysis, cultural-context and
observations fields unchanged (rather than blanking them; the cultural
context keeps the onboarding-generated text), and still renders and returns
the formatted report rather than aborting. -/
theorem generate_fallback_fields (clk : Clock) (s : AppState)
    (hon : s.is_onboarded = true) (hconv : s.ollama_conversation ≠ []) :
    (generate_comprehensive_report clk s .failure).2.assessment_data.severity_score = 6 ∧
    (generate_comprehensive_report clk s .failure).2.assessment_data.risk_indicators
      = ["sleep disturbances", "behavioral changes", "anxiety"] ∧
    (generate_comprehensive_report clk s .failure).2.assessment_data.ai_analysis
      = s.assessment_data.ai_analysis ∧
    (generate_comprehensive_report clk s .failure).2.assessment_data.cultural_context
      = s.assessment_data.cultural_context ∧
    (generate_comprehensive_report clk s .failure).2.assessment_data.parent_observations
      = s.assessment_data.parent_observations ∧
    (generate_comprehensive_report clk s .failure).1
      = render_report clk (generate_comprehensive_report clk s .failure).2 := by
  have hg : generate_gate s = none := by
    unfold generate_gate
    rw [if_neg (by rw [hon]; decide), if_neg hconv]
  unfold generate_comprehensive_report
  rw [hg]
  exact ⟨rfl, rfl, rfl, rfl, rfl, rfl⟩

/-- Witness for C4 (amended) at the conversed session. -/
theorem generate_fallback_fields_witness :
    (generate_comprehensive_report exClock exConversed
        .failure).2.assessment_data.severity_score = 6 ∧
    (generate_comprehensive_report exClock exConversed
        .failure).2.assessment_data.risk_indicators
      = ["sleep disturbances", "behavioral changes", "anxiety"] ∧
    (generate_comprehensive_report exClock exConversed .failure).1
      = render_report exClock
          (generate_comprehensive_report exClock exConversed .failure).2 := by
  have h := generate_fallback_fields exClock exConversed rfl (by decide)
  exact ⟨h.1, h.2.1, h.2.2.2.2.2⟩

/-- Counterexample to C5 as stated: before any specialist reply is stored,
`get_specialist_response` returns `false` paired with the fixed non-empty
"No specialist response available yet. Still monitoring..." message, not the
empty string. -/
theorem getReply_not_empty_counterexample :
    exInit.specialist_response = none ∧
    get_specialist_response exInit
      = (false, "No specialist response available yet. Still monitoring...") ∧
    (get_specialist_response exInit).2 ≠ "" := by
  refine ⟨rfl, rfl, by decide⟩

/-- Claim C5 as amended: before a reply is stored `get_specialist_response`
returns `(false, m)` with the fixed non-empty still-monitoring message `m`;
once a reply is stored it returns `(true, t)` with `t` the fixed-template
rendering of the stored reply, hence the same text on every subsequent call
(the result is a function of the stored reply alone). -/
theorem getReply_behavior (s : AppState) :
    (s.specialist_response = none →
      get_specialist_response s
        = (false, "No specialist response available yet. Still monitoring...")) ∧
    (∀ r : SpecialistResponse, s.specialist_response = some r →
      get_specialist_response s = (true, formatSpecialistResponse r)) := by
  constructor
  · intro h
    unfold get_specialist_response
    rw [h]
  · intro r h
    unfold get_specialist_response
    rw [h]

/-- Witness for C5 (amended): the fresh session has no reply; `exResponded`
stores `exReply` found by its polling run. -/
theorem getReply_behavior_witness :
    get_specialist_response exInit
      = (false, "No specialist response available yet. Still monitoring...") ∧
    get_specialist_response exResponded = (true, formatSpecialistResponse exReply) :=
  ⟨(getReply_behavior exInit).1 rfl,
    (getReply_behavior exResponded).2 exReply (by decide)⟩

end TraumaApp
